import Mathlib

/-!
# Verification of the FINITY dashboard shell

Shallow embedding of the FINITY client-side application (React/JSX sources)
and proofs of the specification's claims about it.

The embedded artifacts are:

* the four embedded-dashboard page components
  (`NewsBoard` from `src/unnamed/part_000`,
  `PortfolioOptimization` from `src/unnamed/part_001`,
  `CrossBorder` from `src/src/scenes/crossborder/index.jsx`,
  and `GdpDashboard`, whose source file is not in the snapshot and is
  modelled from the spec);
* the signed-in and signed-out route tables of `src/src/App.jsx`;
* the static `Line` ("About Us") page from `src/src/scenes/line/index.jsx`.
-/

/-- The arguments of a `window.open(url, target, features)` call. -/
structure WindowOpen where
  url : String
  target : String
  features : String
deriving DecidableEq, Repr

/-- Primitive effects an event handler may issue.  The source handlers only
ever issue `setErrorFlag`; the other constructors exist so that "the handler
performs no logging / reporting / retry / window-open" is a statement about
the handler's effect list rather than vacuously true by typing. -/
inductive Effect where
  | setErrorFlag (b : Bool)
  | logError (msg : String)
  | reportError (msg : String)
  | retryLoad
  | windowOpen (w : WindowOpen)
deriving DecidableEq, Repr

/-- What an embedded-dashboard page renders: either the inline frame (with
its `src`, its `sandbox` attribute and its `onError` handler) or the fallback
panel (message, button label, and the `window.open` action of the button).
The JSX ternary `!error ? <iframe .../> : <div>...</div>` produces exactly
one of the two. -/
inductive DashRender where
  | frame (src : String) (sandbox : String) (onError : List Effect)
  | fallback (message : String) (buttonLabel : String) (onClick : WindowOpen)
deriving DecidableEq, Repr

def DashRender.isFrame : DashRender → Bool
  | .frame _ _ _ => true
  | .fallback _ _ _ => false

def DashRender.isFallback : DashRender → Bool
  | .frame _ _ _ => false
  | .fallback _ _ _ => true

def DashRender.srcOf : DashRender → Option String
  | .frame s _ _ => some s
  | .fallback _ _ _ => none

def DashRender.sandboxOf : DashRender → Option String
  | .frame _ sb _ => some sb
  | .fallback _ _ _ => none

def DashRender.onErrorOf : DashRender → Option (List Effect)
  | .frame _ _ h => some h
  | .fallback _ _ _ => none

def DashRender.messageOf : DashRender → Option String
  | .frame _ _ _ => none
  | .fallback m _ _ => some m

def DashRender.buttonLabelOf : DashRender → Option String
  | .frame _ _ _ => none
  | .fallback _ l _ => some l

def DashRender.fallbackAction : DashRender → Option WindowOpen
  | .frame _ _ _ => none
  | .fallback _ _ w => some w

/-- `useState(false)`: the initial value of every page's load-error flag. -/
def initErrorState : Bool := false

namespace NewsBoard

/-- `const stockNewsUrl = '...'` of `src/unnamed/part_000`. -/
def stockNewsUrl : String :=
  "https://web-news-iwhdvddvapstytxauebj4u.streamlit.app/?embed=true"

/-- `const handleIframeError = () => { setIframeError(true); };` -/
def handleIframeError : List Effect := [Effect.setErrorFlag true]

/-- `const openInNewTab = () => { window.open(stockNewsUrl, '_blank', 'noopener,noreferrer'); };` -/
def openInNewTab : WindowOpen :=
  { url := stockNewsUrl, target := "_blank", features := "noopener,noreferrer" }

/-- The `sandbox` attribute of the inline frame. -/
def sandboxAttr : String := "allow-same-origin allow-scripts allow-forms allow-popups"

/-- The JSX returned by `NewsBoard`, as a function of the `iframeError` flag:
`!iframeError ? <iframe src={stockNewsUrl} onError={handleIframeError} sandbox=.../>
 : <div><p>Unable to embed Stock News directly.</p><button onClick={openInNewTab}>Open in New Tab</button></div>`. -/
def render (iframeError : Bool) : DashRender :=
  if !iframeError then
    DashRender.frame stockNewsUrl sandboxAttr handleIframeError
  else
    DashRender.fallback "Unable to embed Stock News directly." "Open in New Tab" openInNewTab

end NewsBoard

namespace PortfolioOptimization

/-- `const streamlitUrl = '...'` of `src/unnamed/part_001`. -/
def streamlitUrl : String :=
  "https://ieteportfoliooptimisation.streamlit.app/?embed=true"

/-- `const handleIframeError = () => { setIframeError(true); };` -/
def handleIframeError : List Effect := [Effect.setErrorFlag true]

/-- `const openInNewTab = () => { window.open(streamlitUrl, '_blank', 'noopener,noreferrer'); };` -/
def openInNewTab : WindowOpen :=
  { url := streamlitUrl, target := "_blank", features := "noopener,noreferrer" }

/-- The `sandbox` attribute of the inline frame. -/
def sandboxAttr : String := "allow-same-origin allow-scripts allow-forms allow-popups"

/-- The JSX returned by `PortfolioOptimization`, as a function of `iframeError`. -/
def render (iframeError : Bool) : DashRender :=
  if !iframeError then
    DashRender.frame streamlitUrl sandboxAttr handleIframeError
  else
    DashRender.fallback "Unable to embed the Portfolio Optimizer directly." "Open in New Tab"
      openInNewTab

end PortfolioOptimization

namespace CrossBorder

/-- `const dashboardUrl = '...'` of `src/src/scenes/crossborder/index.jsx`. -/
def dashboardUrl : String :=
  "https://itemcrossbordercomplience.streamlit.app/?embed=true"

/-- `const handleDashboardError = () => { setDashboardError(true); };` -/
def handleDashboardError : List Effect := [Effect.setErrorFlag true]

/-- `const openDashboardInNewTab = () => { window.open(dashboardUrl, '_blank', 'noopener,noreferrer'); };` -/
def openDashboardInNewTab : WindowOpen :=
  { url := dashboardUrl, target := "_blank", features := "noopener,noreferrer" }

/-- The `sandbox` attribute of the inline frame. -/
def sandboxAttr : String := "allow-same-origin allow-scripts allow-forms allow-popups"

/-- The JSX returned by `CrossBorder`, as a function of `dashboardError`.
Note the fallback message of this page really says "GDP Dashboard". -/
def render (dashboardError : Bool) : DashRender :=
  if !dashboardError then
    DashRender.frame dashboardUrl sandboxAttr handleDashboardError
  else
    DashRender.fallback "Unable to embed the GDP Dashboard directly." "Open in New Tab"
      openDashboardInNewTab

end CrossBorder

namespace GdpDashboard

/-- Modelled from the spec: the source of `src/scenes/gdp` (the `GdpDashboard`
component imported by `App.jsx`) is not in the snapshot.  Per the spec the
page follows the common pattern: an error handler that only sets the page's
load-error flag. -/
def handleIframeError : List Effect := [Effect.setErrorFlag true]

/-- Modelled from the spec: the fallback action opens the same fixed URL in a
new top-level browsing context.  The concrete URL string is not in the
snapshot, so it is a parameter. -/
def openInNewTab (url : String) : WindowOpen :=
  { url := url, target := "_blank", features := "noopener,noreferrer" }

/-- Modelled from the spec: the fixed permission set
`allow-same-origin allow-scripts allow-forms allow-popups` shared by all
four dashboards. -/
def sandboxAttr : String := "allow-same-origin allow-scripts allow-forms allow-popups"

/-- Modelled from the spec: render a sandboxed inline frame at the fixed URL;
on the load-error flag, a fallback panel whose single button opens the same
URL in a new tab.  URL and fallback message are parameters since the source
file is missing. -/
def render (url message : String) (iframeError : Bool) : DashRender :=
  if !iframeError then
    DashRender.frame url sandboxAttr handleIframeError
  else
    DashRender.fallback message "Open in New Tab" (openInNewTab url)

end GdpDashboard

/-- The events an embedded-dashboard page can receive during its lifetime:
the inline frame's load-error event, and a click on the fallback button
(whose handler calls `window.open` and performs no state update). -/
inductive PageEvent where
  | loadError
  | clickOpenInNewTab
deriving DecidableEq, Repr

instance : Fintype PageEvent :=
  ⟨⟨{PageEvent.loadError, PageEvent.clickOpenInNewTab}, by decide⟩, by
    intro x; cases x <;> decide⟩

/-- Apply a handler's effect list to a page's load-error flag (only
`setErrorFlag` touches it). -/
def applyEffectsFlag (err : Bool) (effs : List Effect) : Bool :=
  effs.foldl (fun e eff =>
    match eff with
    | Effect.setErrorFlag b => b
    | _ => e) err

/-- One step of a page's state machine: the load-error event runs the frame's
`onError` handler; the fallback-button click runs `window.open` only, leaving
the flag unchanged. -/
def pageStep (onError : List Effect) (err : Bool) : PageEvent → Bool
  | PageEvent.loadError => applyEffectsFlag err onError
  | PageEvent.clickOpenInNewTab => err

/-- Run a page from mount (`useState(false)`) through a sequence of events. -/
def runPage (onError : List Effect) (events : List PageEvent) : Bool :=
  events.foldl (pageStep onError) initErrorState

/-- The page components referenced by the signed-in route table of
`src/src/App.jsx` (one constructor per imported component that appears in a
`<Route element=.../>`). -/
inductive PageComponent where
  | dashboard
  | contacts
  | invoices
  | portfolioOptimization
  | mutualTear
  | gdpDashboard
  | crossBorder
  | form
  | bar
  | chatbot
  | line
  | faq
  | calendar
deriving DecidableEq, Repr

/-- The signed-in `<Routes>` table of `src/src/App.jsx`, in source order.
Note `/pie` is wired to `<Chatbot />` and `/line` to the `Line` ("About Us")
component. -/
def signedInRoutes : List (String × PageComponent) :=
  [("/", PageComponent.dashboard),
   ("/contacts", PageComponent.contacts),
   ("/invoices", PageComponent.invoices),
   ("/portfolio", PageComponent.portfolioOptimization),
   ("/mutualfunds", PageComponent.mutualTear),
   ("/gdp", PageComponent.gdpDashboard),
   ("/crossborder", PageComponent.crossBorder),
   ("/form", PageComponent.form),
   ("/bar", PageComponent.bar),
   ("/pie", PageComponent.chatbot),
   ("/line", PageComponent.line),
   ("/faq", PageComponent.faq),
   ("/calendar", PageComponent.calendar)]

/-- Route matching for the signed-in table: all its patterns are literal
paths (no wildcards), and the router renders the first — here, only —
route whose path equals the current path, or nothing. -/
def matchSignedIn (path : String) : Option PageComponent :=
  (signedInRoutes.find? (fun r => r.1 == path)).map (fun r => r.2)

/-- What the signed-out `<Routes>` of `src/src/App.jsx` renders. -/
inductive SignedOutView where
  | signInForm
  | signUpForm
  | redirectToSignIn
deriving DecidableEq, Repr

/-- Whether `path` is matched by the route pattern `pattern ++ "/*"`:
the pattern's own path, or any path below it. -/
def pathUnder (pattern path : String) : Bool :=
  path == pattern || (pattern ++ "/").data.isPrefixOf path.data

/-- The signed-out `<Routes>` table: `/sign-in/*` renders `<SignIn />`,
`/sign-up/*` renders `<SignUp ... />`, and the catch-all `*` renders
`<RedirectToSignIn />`.  The router renders the one best match. -/
def matchSignedOut (path : String) : SignedOutView :=
  if pathUnder "/sign-in" path then SignedOutView.signInForm
  else if pathUnder "/sign-up" path then SignedOutView.signUpForm
  else SignedOutView.redirectToSignIn

/-- The four embedded-dashboard pages. -/
inductive PageId where
  | news
  | portfolio
  | crossborder
  | gdp
deriving DecidableEq, Repr

instance : Fintype PageId :=
  ⟨⟨{PageId.news, PageId.portfolio, PageId.crossborder, PageId.gdp}, by decide⟩, by
    intro x; cases x <;> decide⟩

/-- The UI-local state of the application: the sidebar flag and theme mode of
the shell, and one load-error flag per embedded-dashboard page (each page's
`useState(false)`). -/
structure AppState where
  isSidebar : Bool
  darkMode : Bool
  newsError : Bool
  portfolioError : Bool
  crossborderError : Bool
  gdpError : Bool
deriving DecidableEq, Repr, Fintype

/-- Read one page's load-error flag. -/
def pageError (s : AppState) : PageId → Bool
  | PageId.news => s.newsError
  | PageId.portfolio => s.portfolioError
  | PageId.crossborder => s.crossborderError
  | PageId.gdp => s.gdpError

/-- The load-error handler installed on page `p`'s inline frame. -/
def handlerOf : PageId → List Effect
  | PageId.news => NewsBoard.handleIframeError
  | PageId.portfolio => PortfolioOptimization.handleIframeError
  | PageId.crossborder => CrossBorder.handleDashboardError
  | PageId.gdp => GdpDashboard.handleIframeError

/-- Apply one effect issued from page `p` to the application state.
`setErrorFlag` is that page's `setXxxError` state setter; the remaining
effects are external (console, network, window) and leave the state alone. -/
def applyEffect (p : PageId) (s : AppState) : Effect → AppState
  | Effect.setErrorFlag b =>
      match p with
      | PageId.news => { s with newsError := b }
      | PageId.portfolio => { s with portfolioError := b }
      | PageId.crossborder => { s with crossborderError := b }
      | PageId.gdp => { s with gdpError := b }
  | _ => s

/-- Run a handler's effect list from page `p` on the application state. -/
def runHandler (p : PageId) (effs : List Effect) (s : AppState) : AppState :=
  effs.foldl (applyEffect p) s

/-- A static informational page: its `Header` title and main heading. -/
structure StaticPage where
  headerTitle : String
  mainHeading : String
deriving DecidableEq, Repr

namespace Line

/-- The static page rendered by `src/src/scenes/line/index.jsx`:
`<Header title="About Us" />` followed by hardcoded prose opening with
`<h1>Welcome to FINITY</h1>`. -/
def page : StaticPage :=
  { headerTitle := "About Us", mainHeading := "Welcome to FINITY" }

end Line

section Helpers

/-- A path matching no literal route of the signed-in table is matched to no
page component. -/
theorem matchSignedIn_eq_none_of_not_mem (path : String)
    (h : path ∉ signedInRoutes.map Prod.fst) : matchSignedIn path = none := by
  unfold matchSignedIn
  rw [Option.map_eq_none']
  rw [List.find?_eq_none]
  intro r hr hbeq
  exact h (List.mem_map.mpr ⟨r, hr, eq_of_beq hbeq⟩)

/-- The `/sign-in/*` and `/sign-up/*` patterns match disjoint sets of paths. -/
theorem signIn_signUp_patterns_disjoint (p : String)
    (h : pathUnder "/sign-in" p = true) : pathUnder "/sign-up" p = false := by
  unfold pathUnder at h ⊢
  rw [Bool.or_eq_true] at h
  rw [Bool.or_eq_false_iff]
  rcases h with h | h
  · have hp : p = "/sign-in" := eq_of_beq h
    subst hp
    exact ⟨by decide, by decide⟩
  · constructor
    · cases hb : p == "/sign-up"
      · rfl
      · have hp : p = "/sign-up" := eq_of_beq hb
        subst hp
        exact absurd h (by decide)
    · cases hb : ("/sign-up" ++ "/").data.isPrefixOf p.data
      · rfl
      · exfalso
        have h1 : ("/sign-in" ++ "/").data <+: p.data := List.isPrefixOf_iff_prefix.mp h
        have h2 : ("/sign-up" ++ "/").data <+: p.data := List.isPrefixOf_iff_prefix.mp hb
        have hlen : (("/sign-in" ++ "/").data).length = (("/sign-up" ++ "/").data).length := by
          decide
        have h12 : ("/sign-in" ++ "/").data <+: ("/sign-up" ++ "/").data :=
          List.prefix_of_prefix_length_le h1 h2 (le_of_eq hlen)
        exact absurd (h12.eq_of_length hlen) (by decide)

end Helpers

/-- C1: for every embedded-dashboard page and every value of its load-error
flag, exactly one of {inline frame, fallback panel} is rendered, and the
fallback panel is rendered if and only if the load-error flag is set. -/
theorem dashboard_fallback_iff_error :
    ∀ (e : Bool) (url msg : String),
      ((NewsBoard.render e).isFallback = e ∧ (NewsBoard.render e).isFrame = !e) ∧
      ((PortfolioOptimization.render e).isFallback = e ∧
        (PortfolioOptimization.render e).isFrame = !e) ∧
      ((CrossBorder.render e).isFallback = e ∧ (CrossBorder.render e).isFrame = !e) ∧
      ((GdpDashboard.render url msg e).isFallback = e ∧
        (GdpDashboard.render url msg e).isFrame = !e) := by
  intro e url msg
  cases e <;>
    exact ⟨⟨rfl, rfl⟩, ⟨rfl, rfl⟩, ⟨rfl, rfl⟩, ⟨rfl, rfl⟩⟩

/-- C2: for every embedded-dashboard page, the URL opened by the fallback
action (in a new top-level browsing context, target `_blank`) is exactly the
URL passed as the source of that page's inline frame. -/
theorem fallback_opens_frame_url :
    ((NewsBoard.render false).srcOf = some NewsBoard.openInNewTab.url ∧
     (NewsBoard.render true).fallbackAction = some NewsBoard.openInNewTab ∧
     NewsBoard.openInNewTab.url = NewsBoard.stockNewsUrl ∧
     NewsBoard.openInNewTab.target = "_blank") ∧
    ((PortfolioOptimization.render false).srcOf = some PortfolioOptimization.openInNewTab.url ∧
     (PortfolioOptimization.render true).fallbackAction = some PortfolioOptimization.openInNewTab ∧
     PortfolioOptimization.openInNewTab.url = PortfolioOptimization.streamlitUrl ∧
     PortfolioOptimization.openInNewTab.target = "_blank") ∧
    ((CrossBorder.render false).srcOf = some CrossBorder.openDashboardInNewTab.url ∧
     (CrossBorder.render true).fallbackAction = some CrossBorder.openDashboardInNewTab ∧
     CrossBorder.openDashboardInNewTab.url = CrossBorder.dashboardUrl ∧
     CrossBorder.openDashboardInNewTab.target = "_blank") ∧
    (∀ url msg,
      (GdpDashboard.render url msg false).srcOf = some (GdpDashboard.openInNewTab url).url ∧
      (GdpDashboard.render url msg true).fallbackAction = some (GdpDashboard.openInNewTab url) ∧
      (GdpDashboard.openInNewTab url).url = url ∧
      (GdpDashboard.openInNewTab url).target = "_blank") :=
  ⟨⟨rfl, rfl, rfl, rfl⟩, ⟨rfl, rfl, rfl, rfl⟩, ⟨rfl, rfl, rfl, rfl⟩,
    fun _ _ => ⟨rfl, rfl, rfl, rfl⟩⟩

/-- C3: every embedded-dashboard page starts in the Embedding state
(`useState(false)`), its step relation reaches Fallback exactly on the
load-error event, and no event ever clears the flag (so no transition from
Fallback back to Embedding without a remount, which restarts at
`initErrorState`). -/
theorem dashboard_state_machine :
    initErrorState = false ∧
    ∀ (s : Bool) (e : PageEvent),
      (pageStep NewsBoard.handleIframeError s e = true ↔
        (s = true ∨ e = PageEvent.loadError)) ∧
      (pageStep PortfolioOptimization.handleIframeError s e = true ↔
        (s = true ∨ e = PageEvent.loadError)) ∧
      (pageStep CrossBorder.handleDashboardError s e = true ↔
        (s = true ∨ e = PageEvent.loadError)) ∧
      (pageStep GdpDashboard.handleIframeError s e = true ↔
        (s = true ∨ e = PageEvent.loadError)) := by
  refine ⟨rfl, ?_⟩
  intro s e
  cases s <;> cases e <;> decide

/-- C4: the signed-in route table maps `/portfolio` to the
portfolio-optimization page; that page initially renders the inline frame at
its fixed hardcoded URL; the frame's load-error event moves the state machine
to Fallback; and the fallback panel shows the text
"Unable to embed the Portfolio Optimizer directly" (as the prefix of its
message) together with an "Open in New Tab" button. -/
theorem portfolio_route_scenario :
    matchSignedIn "/portfolio" = some PageComponent.portfolioOptimization ∧
    (PortfolioOptimization.render initErrorState).srcOf =
      some PortfolioOptimization.streamlitUrl ∧
    PortfolioOptimization.streamlitUrl =
      "https://ieteportfoliooptimisation.streamlit.app/?embed=true" ∧
    pageStep PortfolioOptimization.handleIframeError initErrorState PageEvent.loadError = true ∧
    (PortfolioOptimization.render true).messageOf =
      some "Unable to embed the Portfolio Optimizer directly." ∧
    ("Unable to embed the Portfolio Optimizer directly".data).isPrefixOf
      ("Unable to embed the Portfolio Optimizer directly.".data) = true ∧
    (PortfolioOptimization.render true).buttonLabelOf = some "Open in New Tab" := by
  refine ⟨by decide, rfl, rfl, rfl, rfl, by decide, rfl⟩

/-- C5: the signed-in route table maps exactly the thirteen listed paths,
each to one page component (the path column has no duplicates, and matching
returns that one component), and any other path matches no page component. -/
theorem signedin_route_table :
    signedInRoutes.map Prod.fst =
      ["/", "/contacts", "/invoices", "/portfolio", "/mutualfunds", "/gdp", "/crossborder",
       "/form", "/bar", "/pie", "/line", "/faq", "/calendar"] ∧
    (signedInRoutes.map Prod.fst).Nodup ∧
    (matchSignedIn "/" = some PageComponent.dashboard ∧
     matchSignedIn "/contacts" = some PageComponent.contacts ∧
     matchSignedIn "/invoices" = some PageComponent.invoices ∧
     matchSignedIn "/portfolio" = some PageComponent.portfolioOptimization ∧
     matchSignedIn "/mutualfunds" = some PageComponent.mutualTear ∧
     matchSignedIn "/gdp" = some PageComponent.gdpDashboard ∧
     matchSignedIn "/crossborder" = some PageComponent.crossBorder ∧
     matchSignedIn "/form" = some PageComponent.form ∧
     matchSignedIn "/bar" = some PageComponent.bar ∧
     matchSignedIn "/pie" = some PageComponent.chatbot ∧
     matchSignedIn "/line" = some PageComponent.line ∧
     matchSignedIn "/faq" = some PageComponent.faq ∧
     matchSignedIn "/calendar" = some PageComponent.calendar) ∧
    ∀ path : String, path ∉ signedInRoutes.map Prod.fst → matchSignedIn path = none := by
  refine ⟨rfl, by decide, by decide, ?_⟩
  exact matchSignedIn_eq_none_of_not_mem

/-- C5 witness: `/settings` is not one of the thirteen mapped paths and
renders no page component. -/
theorem signedin_route_table_witness : matchSignedIn "/settings" = none :=
  signedin_route_table.2.2.2 "/settings" (by decide)

/-- C6: in the signed-out view, for every path exactly one of
{sign-in form, sign-up form, redirect-to-sign-in} renders: the sign-in form
exactly for paths under `/sign-in/*`, the sign-up form exactly for paths
under `/sign-up/*`, and the redirect exactly for all remaining paths. -/
theorem signedout_exactly_one_view :
    ∀ path : String,
      (matchSignedOut path = SignedOutView.signInForm ↔
        pathUnder "/sign-in" path = true) ∧
      (matchSignedOut path = SignedOutView.signUpForm ↔
        pathUnder "/sign-up" path = true) ∧
      (matchSignedOut path = SignedOutView.redirectToSignIn ↔
        (pathUnder "/sign-in" path = false ∧ pathUnder "/sign-up" path = false)) := by
  intro path
  cases h1 : pathUnder "/sign-in" path
  · cases h2 : pathUnder "/sign-up" path
    · simp [matchSignedOut, h1, h2]
    · simp [matchSignedOut, h1, h2]
  · have h2 := signIn_signUp_patterns_disjoint path h1
    simp [matchSignedOut, h1, h2]

/-- C7: each embedded-dashboard page renders its inline frame with its one
fixed hardcoded source URL and with the sandbox permission set exactly
`allow-same-origin allow-scripts allow-forms allow-popups`, identical across
all four dashboard pages. -/
theorem dashboard_sandbox_fixed :
    (NewsBoard.sandboxAttr = "allow-same-origin allow-scripts allow-forms allow-popups" ∧
     PortfolioOptimization.sandboxAttr = NewsBoard.sandboxAttr ∧
     CrossBorder.sandboxAttr = NewsBoard.sandboxAttr ∧
     GdpDashboard.sandboxAttr = NewsBoard.sandboxAttr) ∧
    ((NewsBoard.render false).sandboxOf = some NewsBoard.sandboxAttr ∧
     (NewsBoard.render false).srcOf = some NewsBoard.stockNewsUrl ∧
     NewsBoard.stockNewsUrl =
       "https://web-news-iwhdvddvapstytxauebj4u.streamlit.app/?embed=true") ∧
    ((PortfolioOptimization.render false).sandboxOf = some PortfolioOptimization.sandboxAttr ∧
     (PortfolioOptimization.render false).srcOf = some PortfolioOptimization.streamlitUrl ∧
     PortfolioOptimization.streamlitUrl =
       "https://ieteportfoliooptimisation.streamlit.app/?embed=true") ∧
    ((CrossBorder.render false).sandboxOf = some CrossBorder.sandboxAttr ∧
     (CrossBorder.render false).srcOf = some CrossBorder.dashboardUrl ∧
     CrossBorder.dashboardUrl =
       "https://itemcrossbordercomplience.streamlit.app/?embed=true") ∧
    ∀ url msg,
      (GdpDashboard.render url msg false).sandboxOf = some GdpDashboard.sandboxAttr ∧
      (GdpDashboard.render url msg false).srcOf = some url :=
  ⟨⟨rfl, rfl, rfl, rfl⟩, ⟨rfl, rfl, rfl⟩, ⟨rfl, rfl, rfl⟩, ⟨rfl, rfl, rfl⟩,
    fun _ _ => ⟨rfl, rfl⟩⟩

/-- C8: every page's load-error handler issues exactly one effect — setting
that page's load-error flag to true — so no logging, reporting, retry or
window-open effect occurs, and running the handler leaves every other page's
flag and the shell's sidebar and theme state unchanged. -/
theorem load_error_only_sets_flag :
    (∀ p : PageId, handlerOf p = [Effect.setErrorFlag true]) ∧
    ∀ (p : PageId) (s : AppState),
      (∀ q : PageId,
        pageError (runHandler p (handlerOf p) s) q =
          (if q = p then true else pageError s q)) ∧
      (runHandler p (handlerOf p) s).isSidebar = s.isSidebar ∧
      (runHandler p (handlerOf p) s).darkMode = s.darkMode := by
  constructor
  · intro p; cases p <;> rfl
  · intro p s
    refine ⟨?_, ?_, ?_⟩
    · intro q; cases p <;> cases q <;> cases s <;> rfl
    · cases p <;> cases s <;> rfl
    · cases p <;> cases s <;> rfl

/-- C9: on the cross-border compliance page with the load-error flag set, the
fallback message reads "Unable to embed the GDP Dashboard directly." (it
names the GDP Dashboard), while the fallback button opens the cross-border
compliance URL that the frame used. -/
theorem crossborder_fallback_mislabels_gdp :
    CrossBorder.render true =
      DashRender.fallback "Unable to embed the GDP Dashboard directly." "Open in New Tab"
        CrossBorder.openDashboardInNewTab ∧
    ("GDP Dashboard".data) <:+: ("Unable to embed the GDP Dashboard directly.".data) ∧
    CrossBorder.openDashboardInNewTab.url = CrossBorder.dashboardUrl ∧
    CrossBorder.dashboardUrl = "https://itemcrossbordercomplience.streamlit.app/?embed=true" := by
  refine ⟨rfl, by decide, rfl, rfl⟩

/-- C10: the signed-in route table wires `/pie` to the `Chatbot` component
and `/line` to the `Line` component, the static "About Us" informational
page. -/
theorem pie_chatbot_line_about :
    matchSignedIn "/pie" = some PageComponent.chatbot ∧
    matchSignedIn "/line" = some PageComponent.line ∧
    Line.page.headerTitle = "About Us" ∧
    Line.page.mainHeading = "Welcome to FINITY" := by
  refine ⟨by decide, by decide, rfl, rfl⟩
